import Mathlib

/-!
Verification development for the studio content-audit repository.

The TypeScript sources under `src/app/actions.ts`, `src/app/page.tsx` and
`src/ai/flows/ai-powered-content-compliance.ts` are shallowly embedded here:
pure string processing (regex-based HTML text extraction, link scanning, URL
handling) becomes executable Lean functions on `List Char`, and the effectful
server actions (`runSingleAudit`, `crawlLinksForAudit`, `takeScreenshots`)
become pure functions parameterised by explicit oracles describing the
behaviour of the network, the analysis service and the headless browser,
returning traces that record the observable outcome of each call.

The platform WHATWG `URL` class used by the code is modelled for hierarchical
`scheme://host` URLs (the only shape exercised by the repository): scheme and
host are lower-cased, an empty path serialises as `/`, default ports are
elided.  Percent-encoding, IDN and opaque-path URLs (`mailto:` etc.) are
outside the model.
-/

set_option maxRecDepth 4096

/-- ASCII lower-casing of a single character, as performed by the WHATWG URL
parser on schemes and hosts and by the `i` regex flag on ASCII input. -/
def toLowerChar (c : Char) : Char :=
  if 'A' ≤ c ∧ c ≤ 'Z' then Char.ofNat (c.toNat + 32) else c

/-- Characters matched by the JavaScript regex class `\s` (restricted to the
ASCII range plus NBSP; the wider Unicode space classes do not occur in this
development). -/
def jsIsWs (c : Char) : Bool :=
  c = ' ' || c = '\t' || c = '\n' || c = '\r' ||
  c = Char.ofNat 0x0B || c = Char.ofNat 0x0C || c = Char.ofNat 0xA0

/-- All indices (in ascending order) at which `pat` occurs in `s`, starting
from index `i` for the head of `s`.  Occurrences may overlap. -/
def listOccsAux (pat : List Char) : List Char → Nat → List Nat
  | [], _ => []
  | c :: rest, i =>
    (if pat.isPrefixOf (c :: rest) then [i] else []) ++ listOccsAux pat rest (i + 1)

/-- All indices at which the pattern `pat` occurs in `s`. -/
def listOccs (pat s : List Char) : List Nat :=
  listOccsAux pat s 0

/-- Index of the first occurrence of `pat` in `s`. -/
def firstOcc (pat s : List Char) : Option Nat :=
  (listOccs pat s).head?

/-- ASCII lower-casing of a character list. -/
def lowerList (s : List Char) : List Char := s.map toLowerChar

/-- Substring of `s` from index `i` (inclusive) to index `j` (exclusive). -/
def subList (s : List Char) (i j : Nat) : List Char :=
  (s.drop i).take (j - i)

/- ### Modelled WHATWG URL -/

/-- Components of a parsed hierarchical URL, mirroring the fields of the
platform `URL` class used by `actions.ts` (`protocol` is `scheme ++ ":"`,
`hostname` excludes the port, `port` is empty when absent or default). -/
structure UrlParts where
  scheme : String
  hostname : String
  port : String
  path : String
  search : String
  hash : String
deriving Repr, DecidableEq

/-- First character of a URL scheme: an ASCII letter. -/
def isSchemeStartChar (c : Char) : Bool :=
  ('a' ≤ c && c ≤ 'z') || ('A' ≤ c && c ≤ 'Z')

/-- Subsequent characters of a URL scheme. -/
def isSchemeChar (c : Char) : Bool :=
  isSchemeStartChar c || ('0' ≤ c && c ≤ '9') || c = '+' || c = '-' || c = '.'

/-- Decimal digit test for port validation. -/
def isDigitChar (c : Char) : Bool := '0' ≤ c && c ≤ '9'

/-- Model of `new URL(s)` for absolute hierarchical URLs: requires a scheme
followed by `"://"` and a non-empty host; splits host/port, path, query and
fragment; lower-cases scheme and hostname; validates the port and elides
default ports.  Returns `none` where the platform constructor throws. -/
def parseAbsoluteUrl (s : String) : Option UrlParts :=
  let l := s.toList
  let sch := l.takeWhile isSchemeChar
  if sch = [] then none
  else if !(match sch.head? with | some c => isSchemeStartChar c | none => false) then none
  else
    let rest0 := l.drop sch.length
    if rest0.take 3 ≠ [':', '/', '/'] then none
    else
      let rest := rest0.drop 3
      let authLen := ((rest.findIdx? (fun c => c = '/' || c = '?' || c = '#')).getD rest.length)
      let auth := rest.take authLen
      if auth = [] then none
      else
        let hostLen := ((listOccs [':'] auth).head?).getD auth.length
        let host := lowerList (auth.take hostLen)
        let port := auth.drop (hostLen + 1)
        if host = [] then none
        else if !(port.all isDigitChar) then none
        else
          let after := rest.drop authLen
          let pathLen := ((after.findIdx? (fun c => c = '?' || c = '#')).getD after.length)
          let path := after.take pathLen
          let tail0 := after.drop pathLen
          let searchLen := ((tail0.findIdx? (fun c => c = '#')).getD tail0.length)
          let search := tail0.take searchLen
          let hash := tail0.drop searchLen
          let scheme := String.mk (lowerList sch)
          let portStr :=
            if (scheme = "https" && String.mk port = "443") ||
               (scheme = "http" && String.mk port = "80") then ""
            else String.mk port
          some { scheme := scheme
                 hostname := String.mk host
                 port := portStr
                 path := String.mk path
                 search := String.mk search
                 hash := String.mk hash }

/-- Serialisation of a parsed URL, mirroring the `href` accessor: an empty
path serialises as `/`, query and fragment are kept. -/
def urlHref (u : UrlParts) : String :=
  u.scheme ++ "://" ++ u.hostname ++ (if u.port = "" then "" else ":" ++ u.port) ++
  (if u.path = "" then "/" else u.path) ++ u.search ++ u.hash

/-- Origin part (scheme, host, port) used as resolution base. -/
def urlOrigin (u : UrlParts) : String :=
  u.scheme ++ "://" ++ u.hostname ++ (if u.port = "" then "" else ":" ++ u.port)

/-- Model of `new URL(ref, base)` for a base already parsed into `UrlParts`:
absolute references win, protocol-relative (`//`), root-relative (`/`),
query-only (`?`), fragment-only (`#`) and path-relative references are
resolved against the base.  Dot-segment normalisation is not modelled (no
input in this development uses it). -/
def resolveUrl (ref : String) (base : UrlParts) : Option UrlParts :=
  match parseAbsoluteUrl ref with
  | some u => some u
  | none =>
    let l := ref.toList
    if l.take 2 = ['/', '/'] then parseAbsoluteUrl (base.scheme ++ ":" ++ ref)
    else if l.head? = some '/' then parseAbsoluteUrl (urlOrigin base ++ ref)
    else if l.head? = some '#' then some { base with hash := ref }
    else if l.head? = some '?' then some { base with search := ref, hash := "" }
    else if l = [] then some { base with hash := "" }
    else
      let bp := base.path.toList
      let dirLen := (((listOccs ['/'] bp).getLast?).map (· + 1)).getD 0
      let dir := bp.take dirLen
      let dirStr := if dir = [] then "/" else String.mk dir
      parseAbsoluteUrl (urlOrigin base ++ dirStr ++ ref)

/- ### Text extraction (`extractTextFromHtml` in `actions.ts`) -/

/-- Leftmost position where the regex `<body[^>]*>[\s\S]*<\/body>` (no flags,
hence case-sensitive) matches `s`, together with the index of the `>` closing
the opening tag: the first occurrence of `<body` that is followed by a `>`
and, after that `>`, by at least one `</body>`. -/
def bodyOpenMatch (s : List Char) : Option (Nat × Nat) :=
  let cands := listOccs ("<body".toList) s
  let gts := listOccs ['>'] s
  let closes := listOccs ("</body>".toList) s
  (cands.filterMap (fun i =>
    match (gts.filter (fun g => i + 5 ≤ g)).head? with
    | none => none
    | some g => if closes.any (fun cl => g + 1 ≤ cl) then some (i, g) else none)).head?

/-- Capture group of `html.match(/<body[^>]*>([\s\S]*)<\/body>/)`: the region
between the `>` of the opening tag and the last `</body>` (the `[\s\S]*` is
greedy, so it backtracks to the final closing tag).  `none` when the regex
does not match. -/
def bodyCapture (s : List Char) : Option (List Char) :=
  match bodyOpenMatch s with
  | none => none
  | some (_, g) =>
    let closes := (listOccs ("</body>".toList) s).filter (fun cl => g + 1 ≤ cl)
    match closes.getLast? with
    | none => none
    | some lastClose => some (subList s (g + 1) lastClose)

/-- One `replace(/<tag[^>]*>.*<\/tag>/gis, '')` step.  Case-insensitive via
lower-casing; `.*` with the `s` flag is greedy, so a successful match runs
from the first viable `<tag…>` opening to the last `</tag>` in the string,
after which no closing tag remains and the global search finds no further
match.  Strings without a viable opening/closing pair are unchanged. -/
def removeRegionGreedy (tag : String) (s : List Char) : List Char :=
  let ls := lowerList s
  let openPat := '<' :: tag.toList
  let closePat := ('<' :: '/' :: tag.toList) ++ ['>']
  let gts := listOccs ['>'] ls
  let closes := listOccs closePat ls
  let firstMatch := (listOccs openPat ls).filterMap (fun i =>
    match (gts.filter (fun g => i + openPat.length ≤ g)).head? with
    | none => none
    | some g => if closes.any (fun cl => g + 1 ≤ cl) then some (i, g) else none)
  match firstMatch.head? with
  | none => s
  | some (i, g) =>
    match ((closes.filter (fun cl => g + 1 ≤ cl)).getLast?) with
    | none => s
    | some lastClose => s.take i ++ s.drop (lastClose + closePat.length)

/-- One pass of `replace(/<[^>]+>/g, ' ')`: every `<` with a later `>` and at
least one character in between is replaced, with the enclosed characters, by
a single space; a `<` without such a closer is kept verbatim. -/
def stripTagsAux : Nat → List Char → List Char
  | 0, s => s
  | _ + 1, [] => []
  | fuel + 1, c :: rest =>
    if c = '<' then
      match (listOccs ['>'] rest).head? with
      | some k =>
        if 1 ≤ k then ' ' :: stripTagsAux fuel (rest.drop (k + 1))
        else c :: stripTagsAux fuel rest
      | none => c :: stripTagsAux fuel rest
    else c :: stripTagsAux fuel rest

/-- Model of `replace(/<[^>]+>/g, ' ')`. -/
def stripTags (s : List Char) : List Char := stripTagsAux s.length s

/-- Model of `replace(/\s\s+/g, ' ')`: every maximal whitespace run of length
at least two becomes a single space; a lone whitespace character is kept
unchanged (the regex requires two characters to match). -/
def collapseWsAux : Nat → List Char → List Char
  | 0, s => s
  | _ + 1, [] => []
  | fuel + 1, c :: rest =>
    if jsIsWs c && (match rest.head? with | some d => jsIsWs d | none => false) then
      ' ' :: collapseWsAux fuel (rest.dropWhile jsIsWs)
    else c :: collapseWsAux fuel rest

/-- Model of `replace(/\s\s+/g, ' ')`. -/
def collapseWs (s : List Char) : List Char := collapseWsAux s.length s

/-- Model of `String.prototype.trim`. -/
def jsTrim (s : List Char) : List Char :=
  ((s.dropWhile jsIsWs).reverse.dropWhile jsIsWs).reverse

/-- The extraction pipeline of `extractTextFromHtml` before the final
`substring(0, 15000)` truncation: body capture, greedy removal of the
`style`/`script`/`nav`/`footer` regions, tag stripping, whitespace collapse
and trim; the empty string when the body regex does not match. -/
def extractTextPreTruncate (html : String) : String :=
  match bodyCapture html.toList with
  | none => ""
  | some body =>
    let t1 := removeRegionGreedy "style" body
    let t2 := removeRegionGreedy "script" t1
    let t3 := removeRegionGreedy "nav" t2
    let t4 := removeRegionGreedy "footer" t3
    String.mk (jsTrim (collapseWs (stripTags t4)))

/-- Model of `extractTextFromHtml` in `actions.ts`: the pipeline above
followed by `substring(0, 15000)`. -/
def extractTextFromHtml (html : String) : String :=
  String.mk ((extractTextPreTruncate html).toList.take 15000)

/- ### Spec-side text extraction (for refinement comparison) -/

/-- One minimal removal step for the spec-side extractor: the first
`<tag…>` opening with the first matching `</tag>` after it is removed as a
single region. -/
def removeRegionMinimalStep (tag : String) (s : List Char) : Option (List Char) :=
  let ls := lowerList s
  let openPat := '<' :: tag.toList
  let closePat := ('<' :: '/' :: tag.toList) ++ ['>']
  let gts := listOccs ['>'] ls
  let closes := listOccs closePat ls
  let firstMatch := (listOccs openPat ls).filterMap (fun i =>
    match (gts.filter (fun g => i + openPat.length ≤ g)).head? with
    | none => none
    | some g =>
      match (closes.filter (fun cl => g + 1 ≤ cl)).head? with
      | none => none
      | some cl => some (i, cl))
  match firstMatch.head? with
  | none => none
  | some (i, cl) => some (s.take i ++ s.drop (cl + closePat.length))

/-- Repeated minimal removal of all `<tag…>…</tag>` regions. -/
def removeRegionsMinimal (tag : String) : Nat → List Char → List Char
  | 0, s => s
  | fuel + 1, s =>
    match removeRegionMinimalStep tag s with
    | none => s
    | some s2 => removeRegionsMinimal tag fuel s2

/-- Tag removal for the spec-side extractor: tags are deleted outright. -/
def removeTagsAux : Nat → List Char → List Char
  | 0, s => s
  | _ + 1, [] => []
  | fuel + 1, c :: rest =>
    if c = '<' then
      match (listOccs ['>'] rest).head? with
      | some k =>
        if 1 ≤ k then removeTagsAux fuel (rest.drop (k + 1))
        else c :: removeTagsAux fuel rest
      | none => c :: removeTagsAux fuel rest
    else c :: removeTagsAux fuel rest

/-- Whitespace collapse for the spec-side extractor: every maximal whitespace
run (of any positive length) becomes a single space. -/
def collapseWsAllAux : Nat → List Char → List Char
  | 0, s => s
  | _ + 1, [] => []
  | fuel + 1, c :: rest =>
    if jsIsWs c then ' ' :: collapseWsAllAux fuel (rest.dropWhile jsIsWs)
    else c :: collapseWsAllAux fuel rest

/-- Modelled from the spec: the Text Extractor as section 4.3 of the spec
words it — locate the body region, remove each `<style>`, `<script>`,
`<nav>`, `<footer>` region individually (including nested content), remove
all remaining tags, collapse whitespace runs to single spaces, trim, and
truncate to 15,000 characters.  Declared only to be compared against the
code's `extractTextFromHtml`. -/
def specExtractTextFromHtml (html : String) : String :=
  match bodyCapture html.toList with
  | none => ""
  | some body =>
    let t1 := removeRegionsMinimal "style" body.length body
    let t2 := removeRegionsMinimal "script" t1.length t1
    let t3 := removeRegionsMinimal "nav" t2.length t2
    let t4 := removeRegionsMinimal "footer" t3.length t3
    let t5 := collapseWsAllAux t4.length (removeTagsAux t4.length t4)
    String.mk ((jsTrim t5).take 15000)

/- ### Link scanning (`linkRegex` in `actions.ts`) -/

/-- One attempted match of `/<a\s+(?:[^>]*?\s+)?href="([^"]*)"/` at the head
of `s`.  The head must read `<a` followed by a whitespace character; the
`href="` literal must then occur before the first `>` and be immediately
preceded by whitespace (the mandatory `\s+` or the optional `[^>]*?\s+`
group both end in whitespace and neither can cross a `>`); the capture is
everything up to the next `"` (which, matching `[^"]*`, may contain `>`).
Returns the capture and the remainder of `s` after the closing quote. -/
def anchorMatchAt (s : List Char) : Option (List Char × List Char) :=
  match s with
  | '<' :: 'a' :: c :: _ =>
    if jsIsWs c then
      let limit := (((listOccs ['>'] s).filter (fun g => 3 ≤ g)).head?).getD s.length
      let hrefPat := "href=\"".toList
      let ps := (listOccs hrefPat s).filter (fun p =>
        3 ≤ p && p < limit &&
        (match s.get? (p - 1) with | some d => jsIsWs d | none => false))
      let withClose := ps.filterMap (fun p =>
        match ((listOccs ['"'] s).filter (fun r => p + 6 ≤ r)).head? with
        | some r => some (p, r)
        | none => none)
      match withClose.head? with
      | some (p, r) => some (subList s (p + 6) r, s.drop (r + 1))
      | none => none
    else none
  | _ => none

/-- Global scan of the anchor regex over `s`: leftmost matches, resuming
after each match's closing quote, exactly as `linkRegex.exec` in a `while`
loop advances `lastIndex`. -/
def hrefCapturesAux : Nat → List Char → List String
  | 0, _ => []
  | _ + 1, [] => []
  | fuel + 1, s =>
    match anchorMatchAt s with
    | some (cap, remaining) => String.mk cap :: hrefCapturesAux fuel remaining
    | none =>
      match s with
      | [] => []
      | _ :: rest => hrefCapturesAux fuel rest

/-- All `href` attribute values captured by `linkRegex` over the markup, in
document order. -/
def findAnchorHrefs (html : String) : List String :=
  hrefCapturesAux html.toList.length html.toList

/- ### Fetch model and crawl (`fetchWebsiteContent`, `crawlLinksForAudit`) -/

/-- Oracle for one `fetch` call: either the transport throws, or a response
arrives with its `ok` flag, status code, status text and body text. -/
inductive FetchResult where
  | transportError (msg : String)
  | response (ok : Bool) (status : Nat) (statusText : String) (body : String)
deriving Repr, DecidableEq

/-- Model of `fetchWebsiteContent`: a non-`ok` response or a transport error
is rethrown wrapped in `Could not retrieve content from …`; an `ok` response
yields the full body text (the comment in the source notes that text
extraction happens later). -/
def fetchWebsiteContent (url : String) (r : FetchResult) : Except String String :=
  match r with
  | .transportError msg =>
    .error ("Could not retrieve content from " ++ url ++ ": " ++ msg)
  | .response ok status statusText body =>
    if ok then .ok body
    else
      .error ("Could not retrieve content from " ++ url ++ ": Failed to fetch URL: "
        ++ toString status ++ " " ++ statusText)

/-- Insertion into a JavaScript `Set` viewed as an insertion-ordered
duplicate-free list: a member is ignored, a new element goes to the end. -/
def dedupAppend (l : List String) (x : String) : List String :=
  if x ∈ l then l else l ++ [x]

/-- The insertion-ordered duplicate-free list obtained by adding every
element of `l` to an initially empty JavaScript `Set`. -/
def jsSetList (l : List String) : List String :=
  l.foldl dedupAppend []

/-- Model of `foundUrl.split('#')[0].split('?')[0]`: drop everything from the
first `#`, then from the first `?`. -/
def stripHashAndQuery (u : String) : String :=
  let l := u.toList
  let l1 := l.take (((listOccs ['#'] l).head?).getD l.length)
  String.mk (l1.take (((listOccs ['?'] l1).head?).getD l1.length))

/-- Model of `s.startsWith(p)` on strings viewed as character lists. -/
def jsStartsWith (s p : String) : Bool :=
  p.toList.isPrefixOf s.toList

/-- Resolution of every captured `href` against the crawl base; `none` when
any single resolution fails (the `URL` constructor throw is caught by the
surrounding `try` and aborts the whole crawl). -/
def resolveHrefs : List String → UrlParts → Option (List String)
  | [], _ => some []
  | h :: t, b =>
    match resolveUrl h b with
    | none => none
    | some u => (resolveHrefs t b).map (fun r => urlHref u :: r)

/-- Shape of the `crawlLinksForAudit` response. -/
structure CrawlResponse where
  success : Bool
  links : Option (List String)
  error : Option String
deriving Repr, DecidableEq

/-- Model of `crawlLinksForAudit`: validate the start URL, build the base as
`protocol + "//" + hostname` (the port is dropped), fetch the start page,
scan anchors, resolve each href against the base, keep those whose resolved
`href` string starts with the base (a string-prefix test), strip fragment
and query and collect into an insertion-ordered set. -/
def crawlLinksForAudit (startUrl : String) (fetch : FetchResult) : CrawlResponse :=
  match parseAbsoluteUrl startUrl with
  | none => { success := false, links := none, error := some "A valid starting URL is required." }
  | some u =>
    let baseUrl := u.scheme ++ "://" ++ u.hostname
    let baseParts : UrlParts :=
      { scheme := u.scheme, hostname := u.hostname, port := "", path := "", search := "", hash := "" }
    match fetch with
    | .transportError msg => { success := false, links := none, error := some msg }
    | .response ok _ statusText body =>
      if !ok then
        { success := false, links := none, error := some ("Failed to fetch start URL: " ++ statusText) }
      else
        match resolveHrefs (findAnchorHrefs body) baseParts with
        | none => { success := false, links := none, error := some "Invalid URL" }
        | some resolved =>
          let kept := resolved.filter (fun f => jsStartsWith f baseUrl)
          { success := true
            links := some (jsSetList (kept.map stripHashAndQuery))
            error := none }

/- ### Compliance analysis schema (`ai-powered-content-compliance.ts`) -/

/-- One flagged issue, suggested rewrite or recommendation as typed by
`AuditItemSchema` (`text` required, `selector` optional). -/
structure AuditItem where
  text : String
  selector : Option String
deriving Repr, DecidableEq

/-- The validated analysis result as typed by
`AnalyzeContentComplianceOutputSchema`. -/
structure AnalyzeContentComplianceOutput where
  complianceScore : Int
  flaggedIssues : List AuditItem
  suggestedRewrites : List AuditItem
  recommendations : List AuditItem
deriving Repr, DecidableEq

/-- The request packaged for the analysis prompt
(`AnalyzeContentComplianceInputSchema`). -/
structure AnalyzeContentComplianceInput where
  brandGuidelines : String
  websiteContent : String
  url : String
deriving Repr, DecidableEq

/-- An untyped item as the analysis service may return it, before schema
validation: either field may be missing. -/
structure RawAuditItem where
  text : Option String
  selector : Option String
deriving Repr, DecidableEq

/-- An untyped analysis response before schema validation: every top-level
field may be missing. -/
structure RawAnalysisOutput where
  complianceScore : Option Int
  flaggedIssues : Option (List RawAuditItem)
  suggestedRewrites : Option (List RawAuditItem)
  recommendations : Option (List RawAuditItem)
deriving Repr, DecidableEq

/-- Validation of one item against `AuditItemSchema`: `text` must be
present, `selector` is optional. -/
def parseRawAuditItem (r : RawAuditItem) : Option AuditItem :=
  match r.text with
  | some t => some { text := t, selector := r.selector }
  | none => none

/-- Validation of an item list. -/
def parseRawItems (l : List RawAuditItem) : Option (List AuditItem) :=
  l.mapM parseRawAuditItem

/-- Validation of a raw response against
`AnalyzeContentComplianceOutputSchema`: `complianceScore` must be a number
(`z.number()` — the schema carries no `.min(0)`/`.max(100)` bound, so the
numeric value is passed through unchecked) and the three item sequences must
be present with valid items. -/
def parseAnalysisOutput (r : RawAnalysisOutput) : Option AnalyzeContentComplianceOutput :=
  match r.complianceScore, r.flaggedIssues, r.suggestedRewrites, r.recommendations with
  | some score, some fi, some sr, some rec =>
    match parseRawItems fi, parseRawItems sr, parseRawItems rec with
    | some fi2, some sr2, some rec2 =>
      some { complianceScore := score, flaggedIssues := fi2
             suggestedRewrites := sr2, recommendations := rec2 }
    | _, _, _ => none
  | _, _, _, _ => none

/-- Oracle for one analysis call: the service either fails outright or
returns an untyped response to be validated against the output schema. -/
inductive AnalysisBehavior where
  | serviceError (msg : String)
  | modelOutput (raw : RawAnalysisOutput)
deriving Repr, DecidableEq

/-- Model of `analyzeContentCompliance` (the genkit flow): a service error
propagates as a thrown error; a model response is validated against the
output schema, a validation failure likewise becoming a thrown error. -/
def analyzeContentCompliance (b : AnalysisBehavior) : Except String AnalyzeContentComplianceOutput :=
  match b with
  | .serviceError msg => .error msg
  | .modelOutput raw =>
    match parseAnalysisOutput raw with
    | some out => .ok out
    | none => .error "Schema validation failed for analysis output."

/- ### Single audit (`runSingleAudit` in `actions.ts`) -/

/-- Per-URL audit status. -/
inductive AuditStatus where
  | success
  | error
  | pending
deriving Repr, DecidableEq

/-- One captured element snapshot (`Screenshot` in `actions.ts`). -/
structure Screenshot where
  selector : String
  screenshot : String
deriving Repr, DecidableEq

/-- The `AuditResult` record of `actions.ts`: optional fields model the
optional properties of the TypeScript type. -/
structure AuditResult where
  url : String
  status : AuditStatus
  data : Option AnalyzeContentComplianceOutput
  screenshots : Option (List Screenshot)
  error : Option String
deriving Repr, DecidableEq

/-- The error-shaped result literal `{ url, status: 'error', error }`. -/
def errorResult (url msg : String) : AuditResult :=
  { url := url, status := .error, data := none, screenshots := none, error := some msg }

/-- The success-shaped result literal `{ url, status: 'success', data }`. -/
def successResult (url : String) (out : AnalyzeContentComplianceOutput) : AuditResult :=
  { url := url, status := .success, data := some out, screenshots := none, error := none }

/-- Input to `runSingleAudit` as typed by `SingleAuditInputSchema`. -/
structure SingleAuditInput where
  brandGuidelines : String
  url : String
  apiKey : Option String
deriving Repr, DecidableEq

/-- The zod error messages produced by `SingleAuditInputSchema.safeParse`, in
field order: a minimum length of 1 on the guidelines and a URL check on the
url (zod's `.url()` succeeds exactly when the platform `URL` constructor
does). -/
def singleAuditValidationErrors (i : SingleAuditInput) : List String :=
  (if i.brandGuidelines.length = 0 then ["Brand guidelines are required."] else []) ++
  (if (parseAbsoluteUrl i.url).isNone then ["A valid URL is required."] else [])

/-- Truthiness of the `GEMINI_API_KEY` environment value: JavaScript treats
both an unset variable and an empty string as falsy. -/
def envKeyMissing : Option String → Bool
  | none => true
  | some s => s.length = 0

/-- Observable outcome of one `runSingleAudit` call: the returned
`{ success, result, error }` object, the `GEMINI_API_KEY` value after the
call (the code writes a supplied key into `process.env`), whether the fetch
was reached, and the exact input passed to `analyzeContentCompliance` when
the analysis was reached. -/
structure SingleAuditTrace where
  success : Bool
  result : Option AuditResult
  error : Option String
  envAfter : Option String
  fetchAttempted : Bool
  analysisInput : Option AnalyzeContentComplianceInput
deriving Repr, DecidableEq

/-- Model of `runSingleAudit`: validate the input; write a truthy `apiKey`
into the environment; fail before any fetch when the effective key is still
falsy; fetch the page, rejecting only an empty *raw* body (`!websiteHtml`);
extract text from the HTML; call the analysis on whatever the extraction
produced (including the empty string); package the outcome as a success or
error result. -/
def runSingleAudit (geminiKey : Option String) (i : SingleAuditInput)
    (fetch : FetchResult) (behavior : AnalyzeContentComplianceInput → AnalysisBehavior) :
    SingleAuditTrace :=
  let errs := singleAuditValidationErrors i
  if errs ≠ [] then
    { success := false, result := none, error := some (String.intercalate ", " errs)
      envAfter := geminiKey, fetchAttempted := false, analysisInput := none }
  else
    let env1 := match i.apiKey with
      | some k => if k.length ≠ 0 then some k else geminiKey
      | none => geminiKey
    if envKeyMissing env1 then
      { success := false, result := none
        error := some "Gemini API key is not set. Please provide it."
        envAfter := env1, fetchAttempted := false, analysisInput := none }
    else
      match fetchWebsiteContent i.url fetch with
      | .error msg =>
        { success := false, result := some (errorResult i.url msg), error := some msg
          envAfter := env1, fetchAttempted := true, analysisInput := none }
      | .ok html =>
        if html.length = 0 then
          let msg := "Could not extract meaningful content from URL."
          { success := false, result := some (errorResult i.url msg), error := some msg
            envAfter := env1, fetchAttempted := true, analysisInput := none }
        else
          let websiteContent := extractTextFromHtml html
          let ainput : AnalyzeContentComplianceInput :=
            { brandGuidelines := i.brandGuidelines, websiteContent := websiteContent, url := i.url }
          match analyzeContentCompliance (behavior ainput) with
          | .error msg =>
            { success := false, result := some (errorResult i.url msg), error := some msg
              envAfter := env1, fetchAttempted := true, analysisInput := some ainput }
          | .ok out =>
            { success := true, result := some (successResult i.url out), error := none
              envAfter := env1, fetchAttempted := true, analysisInput := some ainput }

/- ### Element snapshots (`takeScreenshots` in `actions.ts`) -/

/-- Input to `takeScreenshots` as typed by `ScreenshotInputSchema`. -/
structure ScreenshotInput where
  url : String
  selectors : List String
deriving Repr, DecidableEq

/-- Oracle for one selector inside the capture loop: `page.$` finds no
element, the lookup or `element.screenshot()` throws (both are caught by the
inner `try`), or a capture succeeds with the base64 image. -/
inductive SelectorOutcome where
  | notFound
  | captureError (msg : String)
  | captured (base64 : String)
deriving Repr, DecidableEq

/-- Oracle for one `takeScreenshots` call: whether `puppeteer.launch`
throws, whether page creation / viewport setup / `page.goto` throws after a
successful launch, and the per-selector outcomes. -/
structure BrowserBehavior where
  launchFailure : Option String
  pageSetupFailure : Option String
  outcome : String → SelectorOutcome

/-- The `{ success, screenshots, error }` response plus the resource trace:
whether a browser was launched and whether it was closed by the `finally`
block. -/
structure ScreenshotTrace where
  success : Bool
  screenshots : Option (List Screenshot)
  error : Option String
  browserLaunched : Bool
  browserClosed : Bool
deriving Repr, DecidableEq

/-- The screenshots accumulated by the capture loop: one per selector whose
outcome is a successful capture, in selector order; missing elements and
capture errors are skipped by the inner `try`/`catch`. -/
def capturedScreenshots (outcome : String → SelectorOutcome) (selectors : List String) :
    List Screenshot :=
  selectors.filterMap (fun sel =>
    match outcome sel with
    | .captured b64 => some { selector := sel, screenshot := b64 }
    | _ => none)

/-- Model of `takeScreenshots`: invalid input fails fast; an empty selector
list returns an empty success without launching; a launch failure leaves
`browser` null (nothing to close); any later failure is caught and the
`finally` block closes the browser; otherwise the capture loop collects the
successful subset and the call reports success. -/
def takeScreenshots (i : ScreenshotInput) (b : BrowserBehavior) : ScreenshotTrace :=
  if (parseAbsoluteUrl i.url).isNone then
    { success := false, screenshots := none, error := some "Invalid input for screenshot action."
      browserLaunched := false, browserClosed := false }
  else if i.selectors = [] then
    { success := true, screenshots := some [], error := none
      browserLaunched := false, browserClosed := false }
  else
    match b.launchFailure with
    | some msg =>
      { success := false, screenshots := none, error := some msg
        browserLaunched := false, browserClosed := false }
    | none =>
      match b.pageSetupFailure with
      | some msg =>
        { success := false, screenshots := none, error := some msg
          browserLaunched := true, browserClosed := true }
      | none =>
        { success := true, screenshots := some (capturedScreenshots b.outcome i.selectors)
          error := none, browserLaunched := true, browserClosed := true }

/- ### Batch orchestration (`runAudits`, imported by `page.tsx`) -/

/-- Modelled from the spec: the batch request of section 6 (`runAudits` is
imported by `page.tsx` from `./actions` but is absent from the repository
sources, so the orchestrator is modelled from sections 4.7 and 6 of the
spec) — guideline text, a newline/comma-separated URL string, and the
optional auto-discovery flag. -/
structure AuditsRequest where
  brandGuidelines : String
  urls : String
  autoDiscover : Bool
deriving Repr, DecidableEq

/-- Splitting a raw character list on newline and comma separators. -/
def splitSeps : List Char → List (List Char)
  | [] => [[]]
  | c :: rest =>
    let r := splitSeps rest
    if c = '\n' || c = ',' then [] :: r
    else match r with
      | h :: t => (c :: h) :: t
      | [] => [[c]]

/-- Modelled from the spec: the raw URL entries of a batch request — the
`urls` string split on newlines and commas, entries trimmed, empty entries
dropped (section 6: "urls: string (newline/comma separated)"). -/
def parseUrlList (s : String) : List String :=
  ((splitSeps s.toList).map (fun l => String.mk (jsTrim l))).filter (fun x => x.length ≠ 0)

/-- Scheme detection for the URL Normalizer: a leading run of scheme
characters starting with a letter and followed by a colon. -/
def hasExplicitScheme (s : String) : Bool :=
  let l := s.toList
  let sch := l.takeWhile isSchemeChar
  sch ≠ [] &&
  (match sch.head? with | some c => isSchemeStartChar c | none => false) &&
  l.get? sch.length = some ':'

/-- Modelled from the spec: section 4.1's URL Normalizer input step — the
`https://` scheme is prepended when the raw string has no scheme. -/
def addDefaultScheme (s : String) : String :=
  if hasExplicitScheme s then s else "https://" ++ s

/-- Modelled from the spec: the URL Normalizer of section 4.1 (it belongs to
the orchestrator, which is absent from the repository sources) — default the
scheme to `https`, then parse; `none` models the `InvalidUrl` failure for
inputs that still do not parse as well-formed absolute URLs. -/
def normalizeUrl (s : String) : Option String :=
  (parseAbsoluteUrl (addDefaultScheme s)).map urlHref

/-- Modelled from the spec: the per-URL pipeline of section 4.7 step 4 with
the section 4.4 state machine — fetch, extract, treat empty extracted text
as an error, analyze, and append exactly one success- or error-shaped
result.  The fetcher, extractor and analyzer are the code models defined
above. -/
def auditOneUrl (bg : String) (fetchOf : String → FetchResult)
    (analysisOf : AnalyzeContentComplianceInput → AnalysisBehavior) (url : String) :
    AuditResult :=
  match fetchWebsiteContent url (fetchOf url) with
  | .error msg => errorResult url msg
  | .ok html =>
    let text := extractTextFromHtml html
    if text.length = 0 then errorResult url "NoContent: extraction yielded empty text."
    else
      match analyzeContentCompliance (analysisOf { brandGuidelines := bg, websiteContent := text, url := url }) with
      | .error msg => errorResult url msg
      | .ok out => successResult url out

/-- Modelled from the spec: the resolved working set of section 4.7 — the
submitted URLs normalized with unparseable entries dropped, extended (when
auto-discovery is requested) by the links discovered from fetching the first
URL, the whole collection deduplicated preserving scheduling order
(original URLs first, discovered links appended; the AuditBatch invariant of
section 3 forbids two results with the same url). -/
def resolvedWorkingSet (req : AuditsRequest) (fetchOf : String → FetchResult) : List String :=
  let normalized := (parseUrlList req.urls).filterMap normalizeUrl
  let discovered :=
    if req.autoDiscover then
      match normalized.head? with
      | some first => ((crawlLinksForAudit first (fetchOf first)).links).getD []
      | none => []
    else []
  jsSetList (normalized ++ discovered)

/-- Shape of the batch response of section 6. -/
structure AuditsResponse where
  success : Bool
  results : Option (List AuditResult)
  error : Option String
deriving Repr, DecidableEq

/-- Modelled from the spec: the `runAudits` orchestrator (imported by
`page.tsx` but absent from the repository sources), following section 4.7 —
validate the request before any network activity, fail the batch only when
no parseable URL remains, then audit every URL of the resolved working set
sequentially, one result per URL. -/
def runAudits (req : AuditsRequest) (fetchOf : String → FetchResult)
    (analysisOf : AnalyzeContentComplianceInput → AnalysisBehavior) : AuditsResponse :=
  if req.brandGuidelines.length = 0 then
    { success := false, results := none, error := some "InvalidRequest: brand guidelines are required." }
  else if parseUrlList req.urls = [] then
    { success := false, results := none, error := some "InvalidRequest: at least one URL is required." }
  else
    let ws := resolvedWorkingSet req fetchOf
    if ws = [] then
      { success := false, results := none
        error := some "InvalidRequest: no valid URLs remain after normalization." }
    else
      { success := true
        results := some (ws.map (auditOneUrl req.brandGuidelines fetchOf analysisOf))
        error := none }

/- ### Concrete example inputs used by the theorems below -/

/-- Batch request with two distinct URLs (comma separated). -/
def c1Req : AuditsRequest :=
  { brandGuidelines := "Be concise.", urls := "https://a.com, https://a.com/b", autoDiscover := false }

/-- Fetch oracle where every URL is unreachable. -/
def c1Fetch : String → FetchResult := fun _ => FetchResult.transportError "down"

/-- Analysis oracle where the service always fails. -/
def c1Analysis : AnalyzeContentComplianceInput → AnalysisBehavior :=
  fun _ => AnalysisBehavior.serviceError "svc"

/-- Valid single-audit input without an apiKey. -/
def c2Input : SingleAuditInput :=
  { brandGuidelines := "Tone: formal.", url := "https://a.com/", apiKey := none }

/-- Successful fetch of a page with body text `hello`. -/
def c2Fetch : FetchResult :=
  FetchResult.response true 200 "OK" "<html><body>hello</body></html>"

/-- Analysis oracle returning a shape-valid response whose score is 150. -/
def c2Behavior : AnalyzeContentComplianceInput → AnalysisBehavior :=
  fun _ => AnalysisBehavior.modelOutput
    { complianceScore := some 150, flaggedIssues := some []
      suggestedRewrites := some [], recommendations := some [] }

/-- Markup with no `<body>` region: extraction yields the empty string. -/
def c3Html : String := "<html><head><title>t</title></head></html>"

/-- Successful fetch of the body-less page. -/
def c3Fetch : FetchResult := FetchResult.response true 200 "OK" c3Html

/-- Analysis oracle returning a shape-valid response with score 90. -/
def c3Behavior : AnalyzeContentComplianceInput → AnalysisBehavior :=
  fun _ => AnalysisBehavior.modelOutput
    { complianceScore := some 90, flaggedIssues := some []
      suggestedRewrites := some [], recommendations := some [] }

/-- The spec's link-discovery example page: a same-domain link with a
fragment, a cross-domain link, and a relative link. -/
def c4ExampleHtml : String :=
  "<html><body><a href=\"https://a.com/q#frag\">x</a><a href=\"https://b.com/r\">y</a><a href=\"/s\">z</a></body></html>"

/-- Fetch oracle delivering the spec's link-discovery example page. -/
def c4ExampleFetch : FetchResult := FetchResult.response true 200 "OK" c4ExampleHtml

/-- A page linking to a host that merely extends the base host as a string. -/
def c4LeakHtml : String := "<a href=\"https://a.community/r\">x</a>"

/-- The spec's text-extraction example: a `<script>` block outside a `<body>`
containing `Hello <b>World</b>`. -/
def c6HelloHtml : String :=
  "<html><head><script>var x = 1;</script></head><body>Hello <b>World</b></body></html>"

/-- A body with two sibling `<style>` regions and text between them. -/
def c6TwoStyleHtml : String :=
  "<html><body>A <style>x</style> B <style>y</style> C</body></html>"

/-- The spec's snapshot scenario: two selectors, only `#hero` resolving. -/
def c8Input : ScreenshotInput := { url := "https://a.com/", selectors := ["#hero", "#missing"] }

/-- Browser oracle where launch and page load succeed and only `#hero`
captures. -/
def c8Behavior : BrowserBehavior :=
  { launchFailure := none, pageSetupFailure := none
    outcome := fun sel => if sel = "#hero" then SelectorOutcome.captured "IMG" else SelectorOutcome.notFound }

/-- Valid single-audit input carrying an empty-string apiKey. -/
def c10EmptyKeyInput : SingleAuditInput :=
  { brandGuidelines := "Be nice.", url := "https://a.com/", apiKey := some "" }

/-- Valid single-audit input carrying the apiKey `k1`. -/
def c10KeyInput : SingleAuditInput :=
  { brandGuidelines := "Be nice.", url := "https://a.com/", apiKey := some "k1" }

/-- Valid single-audit input carrying no apiKey. -/
def c10NoKeyInput : SingleAuditInput :=
  { brandGuidelines := "Be nice.", url := "https://a.com/", apiKey := none }

/-- Valid single-audit input used to exercise the error-shaped result. -/
def c5Input : SingleAuditInput :=
  { brandGuidelines := "Stay on message.", url := "https://a.com/", apiKey := none }

/-- Fetch oracle whose transport always fails. -/
def c10Fetch : FetchResult := FetchResult.transportError "net down"

/-- Analysis oracle whose service always fails. -/
def c10Behavior : AnalyzeContentComplianceInput → AnalysisBehavior :=
  fun _ => AnalysisBehavior.serviceError "svc"

/- ### Shared helper lemmas -/

/-- Inserting into the ordered-set model preserves distinctness. -/
theorem dedupAppend_nodup {l : List String} (h : l.Nodup) (x : String) :
    (dedupAppend l x).Nodup := by
  by_cases hx : x ∈ l
  · simpa [dedupAppend, hx] using h
  · simpa [dedupAppend, hx, ← List.concat_eq_append] using List.Nodup.concat hx h

/-- Folding the ordered-set insertion over any list preserves distinctness
of the accumulator. -/
theorem foldl_dedupAppend_nodup (l : List String) :
    ∀ acc : List String, acc.Nodup → (l.foldl dedupAppend acc).Nodup := by
  induction l with
  | nil => intro acc h; simpa using h
  | cons x t ih => intro acc h; exact ih _ (dedupAppend_nodup h x)

/-- The ordered-set model of a JavaScript `Set` holds no duplicates. -/
theorem jsSetList_nodup (l : List String) : (jsSetList l).Nodup :=
  foldl_dedupAppend_nodup l [] List.nodup_nil

/-- A non-empty string has non-zero length. -/
theorem length_ne_zero_of_ne_empty {k : String} (h : k ≠ "") : k.length ≠ 0 := by
  intro h0
  apply h
  cases k with
  | mk data =>
    cases data with
    | nil => rfl
    | cons c t => simp [String.length] at h0

/-- Every branch of the per-URL pipeline reports the audited URL itself. -/
theorem auditOneUrl_url (bg : String) (fetchOf : String → FetchResult)
    (analysisOf : AnalyzeContentComplianceInput → AnalysisBehavior) (url : String) :
    (auditOneUrl bg fetchOf analysisOf url).url = url := by
  unfold auditOneUrl
  split
  · rfl
  · dsimp only
    split
    · rfl
    · split <;> rfl

/-- Projecting the url out of the mapped per-URL pipeline recovers the
working set. -/
theorem map_url_map_auditOneUrl (bg : String) (fetchOf : String → FetchResult)
    (analysisOf : AnalyzeContentComplianceInput → AnalysisBehavior) (l : List String) :
    ((l.map (auditOneUrl bg fetchOf analysisOf)).map AuditResult.url) = l := by
  induction l with
  | nil => rfl
  | cons x t ih => simp [auditOneUrl_url, ih]

/-- Any link list returned by the crawl went through the set model and is
therefore duplicate-free. -/
theorem crawlLinks_links_nodup (u : String) (f : FetchResult) (l : List String)
    (h : (crawlLinksForAudit u f).links = some l) : l.Nodup := by
  unfold crawlLinksForAudit at h
  dsimp only at h
  split at h
  · exact Option.noConfusion h
  · split at h
    · exact Option.noConfusion h
    · split at h
      · exact Option.noConfusion h
      · split at h
        · exact Option.noConfusion h
        · injection h with h2
          rw [← h2]
          exact jsSetList_nodup _

/- ### Claim theorems -/

/-- C1: for every valid audit request with at least one parseable URL (a
batch on which `runAudits` reports success), the batch contains exactly one
`AuditResult` per URL of the resolved working set, and no two results share
the same url.  (`runAudits` is modelled from the spec, being absent from the
repository sources.) -/
theorem runAudits_one_result_per_url (req : AuditsRequest) (fetchOf : String → FetchResult)
    (analysisOf : AnalyzeContentComplianceInput → AnalysisBehavior)
    (h : (runAudits req fetchOf analysisOf).success = true) :
    ∃ rs, (runAudits req fetchOf analysisOf).results = some rs ∧
      rs.length = (resolvedWorkingSet req fetchOf).length ∧
      (rs.map AuditResult.url).Nodup := by
  unfold runAudits at h ⊢
  by_cases h1 : req.brandGuidelines.length = 0
  · rw [if_pos h1] at h; simp at h
  · rw [if_neg h1] at h ⊢
    by_cases h2 : parseUrlList req.urls = []
    · rw [if_pos h2] at h; simp at h
    · rw [if_neg h2] at h ⊢
      by_cases h3 : resolvedWorkingSet req fetchOf = []
      · rw [if_pos h3] at h; simp at h
      · rw [if_neg h3] at h ⊢
        exact ⟨_, rfl, by simp,
          by rw [map_url_map_auditOneUrl]; exact jsSetList_nodup _⟩

/-- Witness for C1: a concrete request with two distinct URLs yields a
successful batch of two results with distinct urls. -/
theorem runAudits_one_result_per_url_witness :
    ∃ rs, (runAudits c1Req c1Fetch c1Analysis).results = some rs ∧
      rs.length = 2 ∧ (rs.map AuditResult.url).Nodup := by
  have h := runAudits_one_result_per_url c1Req c1Fetch c1Analysis (by decide)
  have hl : (resolvedWorkingSet c1Req c1Fetch).length = 2 := by decide
  rw [hl] at h
  exact h

/-- C2 counterexample: the output schema carries no range bound, so a
shape-valid analysis response with `complianceScore = 150` passes validation
and is attached to a success result, refuting the claim that every accepted
report satisfies `complianceScore ≤ 100`. -/
theorem analysis_schema_accepts_score_150 :
    (runSingleAudit (some "k") c2Input c2Fetch c2Behavior).success = true ∧
    (runSingleAudit (some "k") c2Input c2Fetch c2Behavior).result =
      some (successResult "https://a.com/"
        { complianceScore := 150, flaggedIssues := []
          suggestedRewrites := [], recommendations := [] }) ∧
    ¬ ((150 : Int) ≤ 100) := by
  refine ⟨by decide, by decide, by decide⟩

/-- C2 (amended): schema validation checks only presence and shape — the
score must be a number and the three item sequences must be present — and
passes the numeric score through unchanged with no `[0,100]` range check;
any integer score whatsoever is accepted alongside present sequences. -/
theorem parseAnalysisOutput_shape_only :
    (∀ r o, parseAnalysisOutput r = some o → r.complianceScore = some o.complianceScore) ∧
    (∀ score : Int,
      (parseAnalysisOutput
        { complianceScore := some score, flaggedIssues := some []
          suggestedRewrites := some [], recommendations := some [] }).isSome = true) := by
  constructor
  · intro r o h
    unfold parseAnalysisOutput at h
    rcases r with ⟨cs, fi, sr, rec⟩
    dsimp only at h
    cases cs <;> cases fi <;> cases sr <;> cases rec <;> try exact Option.noConfusion h
    repeat' split at h
    all_goals first
      | exact Option.noConfusion h
      | (injection h with h2; subst h2; simp_all)
  · intro score
    rfl

/-- Witness for C2 (amended): the score-passthrough applied at score 150. -/
theorem parseAnalysisOutput_shape_only_witness :
    ({ complianceScore := some 150, flaggedIssues := some []
       suggestedRewrites := some [], recommendations := some [] } : RawAnalysisOutput).complianceScore =
      some ({ complianceScore := 150, flaggedIssues := []
              suggestedRewrites := [], recommendations := [] } : AnalyzeContentComplianceOutput).complianceScore ∧
    (parseAnalysisOutput
      { complianceScore := some 150, flaggedIssues := some []
        suggestedRewrites := some [], recommendations := some [] }).isSome = true := by
  exact ⟨parseAnalysisOutput_shape_only.1 _ _ (by decide), parseAnalysisOutput_shape_only.2 150⟩

/-- C3: a page whose fetch succeeds with markup containing no body region
extracts to the empty string, yet `runSingleAudit` passes that empty text to
the analysis (the guard `!websiteHtml` checks only the raw HTML) and returns
a scored success result — the code contradicts the spec's `NoContent` rule,
and the guard's own message (`Could not extract meaningful content`) shows
the check was meant for the extracted content. -/
theorem runSingleAudit_empty_extraction_becomes_success :
    extractTextFromHtml c3Html = "" ∧
    (runSingleAudit (some "k")
        { brandGuidelines := "Be nice.", url := "https://a.com/", apiKey := none }
        c3Fetch c3Behavior).analysisInput =
      some { brandGuidelines := "Be nice.", websiteContent := "", url := "https://a.com/" } ∧
    (runSingleAudit (some "k")
        { brandGuidelines := "Be nice.", url := "https://a.com/", apiKey := none }
        c3Fetch c3Behavior).success = true ∧
    (runSingleAudit (some "k")
        { brandGuidelines := "Be nice.", url := "https://a.com/", apiKey := none }
        c3Fetch c3Behavior).result =
      some (successResult "https://a.com/"
        { complianceScore := 90, flaggedIssues := []
          suggestedRewrites := [], recommendations := [] }) := by
  refine ⟨by decide, by decide, by decide, by decide⟩

/-- C4 counterexample: the same-domain filter is the string-prefix test
`foundUrl.startsWith(baseUrl)`, not an exact host comparison — a link to
host `a.community` passes the filter for base host `a.com`, so cross-domain
leakage does occur. -/
theorem crawlLinks_cross_domain_prefix_leak :
    (crawlLinksForAudit "https://a.com/p" (FetchResult.response true 200 "OK" c4LeakHtml)).links =
      some ["https://a.community/r"] ∧
    (parseAbsoluteUrl "https://a.community/r").map UrlParts.hostname = some "a.community" ∧
    ("a.community" : String) ≠ "a.com" := by
  refine ⟨by decide, by decide, by decide⟩

/-- C4 (amended): discovery keeps the anchor targets whose resolved URL
starts with the base origin string (scheme + `//` + hostname) — on the
spec's example this excludes `https://b.com/r`, resolves `/s` and strips the
fragment, yielding exactly the two expected links — and every returned link
collection is duplicate-free; the filter is a prefix test rather than an
exact host match, so hosts extending the base host as a string also pass. -/
theorem crawlLinks_discovery_behavior :
    (crawlLinksForAudit "https://a.com/p" c4ExampleFetch).links =
      some ["https://a.com/q", "https://a.com/s"] ∧
    (∀ u f l, (crawlLinksForAudit u f).links = some l → l.Nodup) := by
  exact ⟨by decide, crawlLinks_links_nodup⟩

/-- Witness for C4 (amended): the spec's example evaluated, with the
duplicate-freeness instantiated on its result. -/
theorem crawlLinks_discovery_behavior_witness :
    (crawlLinksForAudit "https://a.com/p" c4ExampleFetch).links =
      some ["https://a.com/q", "https://a.com/s"] ∧
    (["https://a.com/q", "https://a.com/s"] : List String).Nodup := by
  exact ⟨crawlLinks_discovery_behavior.1,
    crawlLinks_discovery_behavior.2 "https://a.com/p" c4ExampleFetch _
      crawlLinks_discovery_behavior.1⟩

/-- C5: every result attached to a `runSingleAudit` response satisfies the
status/field invariant — status is `success` exactly when report data is
present and the error message absent, and `error` exactly when the error
message is present and the data absent. -/
theorem runSingleAudit_status_iff_fields (key : Option String) (i : SingleAuditInput)
    (fetch : FetchResult) (behavior : AnalyzeContentComplianceInput → AnalysisBehavior)
    (r : AuditResult) (h : (runSingleAudit key i fetch behavior).result = some r) :
    ((r.status = AuditStatus.success ↔ (r.data.isSome = true ∧ r.error = none)) ∧
     (r.status = AuditStatus.error ↔ (r.error.isSome = true ∧ r.data = none))) := by
  unfold runSingleAudit at h
  dsimp only at h
  split at h
  · exact Option.noConfusion h
  · split at h
    · exact Option.noConfusion h
    · split at h
      · injection h with h2
        subst h2
        simp [errorResult]
      · split at h
        · injection h with h2
          subst h2
          simp [errorResult]
        · split at h
          · injection h with h2
            subst h2
            simp [errorResult]
          · injection h with h2
            subst h2
            simp [successResult]

/-- Witness for C5: the invariant instantiated on the error result of a
failed fetch. -/
theorem runSingleAudit_status_iff_fields_witness :
    ((errorResult "https://a.com/" "Could not retrieve content from https://a.com/: net down").status =
        AuditStatus.success ↔
      ((errorResult "https://a.com/" "Could not retrieve content from https://a.com/: net down").data.isSome = true ∧
       (errorResult "https://a.com/" "Could not retrieve content from https://a.com/: net down").error = none)) ∧
    ((errorResult "https://a.com/" "Could not retrieve content from https://a.com/: net down").status =
        AuditStatus.error ↔
      ((errorResult "https://a.com/" "Could not retrieve content from https://a.com/: net down").error.isSome = true ∧
       (errorResult "https://a.com/" "Could not retrieve content from https://a.com/: net down").data = none)) := by
  exact runSingleAudit_status_iff_fields (some "k") c5Input c10Fetch c10Behavior _ (by decide)

/-- C6 counterexample: on a body with two sibling `<style>` regions, the
greedy `.*` of the removal regex deletes everything from the first opening
tag to the last closing tag — including the text `B` between the regions —
whereas removing only the style regions (the spec-side extractor) keeps it:
the code yields `A C`, the claimed region-removal semantics yields
`A B C`. -/
theorem extractText_greedy_differs_from_spec :
    extractTextFromHtml c6TwoStyleHtml = "A C" ∧
    specExtractTextFromHtml c6TwoStyleHtml = "A B C" ∧
    ("A C" : String) ≠ "A B C" := by
  refine ⟨by decide, by decide, by decide⟩

/-- C6 (amended): extraction returns the empty string when no body region
is present; otherwise it removes each of the `style`/`script`/`nav`/`footer`
kinds as one greedy span from the first opening tag to the last closing tag
(so content between two same-kind regions is deleted too), replaces the
remaining tags by spaces, collapses whitespace runs of length at least two,
trims, and truncates to 15,000 characters (the output length is exactly the
pre-truncation length capped at 15,000); the spec's example still yields
`Hello World` with no script content. -/
theorem extractText_behavior :
    extractTextFromHtml c6HelloHtml = "Hello World" ∧
    extractTextFromHtml c3Html = "" ∧
    extractTextFromHtml c6TwoStyleHtml = "A C" ∧
    (∀ html, (extractTextFromHtml html).length = min 15000 (extractTextPreTruncate html).length) := by
  refine ⟨by decide, by decide, by decide, ?_⟩
  intro html
  have h1 : (extractTextFromHtml html).length =
      ((extractTextPreTruncate html).toList.take 15000).length := rfl
  rw [h1, List.length_take]
  rfl

/-- C7: the URL Normalizer (modelled from the spec, the orchestrator being
absent from the repository sources) prepends `https://` to a scheme-less
input — normalizing `example.com` yields `https://example.com/` — and
rejects exactly those inputs that still fail to parse as absolute URLs after
the scheme default. -/
theorem normalizeUrl_scheme_defaulting :
    normalizeUrl "example.com" = some "https://example.com/" ∧
    (∀ s, normalizeUrl s = none ↔ parseAbsoluteUrl (addDefaultScheme s) = none) := by
  refine ⟨by decide, ?_⟩
  intro s
  unfold normalizeUrl
  cases parseAbsoluteUrl (addDefaultScheme s) <;> simp

/-- C8: when the browser launches and the page loads, the call reports
success with exactly the subset of selectors that captured successfully —
missing elements and capture errors are skipped without failing the call,
and an empty subset is still a non-error result. -/
theorem takeScreenshots_partial_capture (i : ScreenshotInput) (b : BrowserBehavior)
    (hurl : (parseAbsoluteUrl i.url).isSome = true)
    (hl : b.launchFailure = none) (hp : b.pageSetupFailure = none) :
    (takeScreenshots i b).success = true ∧
    (takeScreenshots i b).screenshots = some (capturedScreenshots b.outcome i.selectors) ∧
    (takeScreenshots i b).error = none := by
  have hn : (parseAbsoluteUrl i.url).isNone = false := by
    cases hx : parseAbsoluteUrl i.url
    · rw [hx] at hurl; simp at hurl
    · rfl
  unfold takeScreenshots
  rw [hn, hl, hp]
  by_cases hs : i.selectors = []
  · simp [hs, capturedScreenshots]
  · simp [hs]

/-- Witness for C8: the spec's scenario — selectors `#hero` and `#missing`
with only `#hero` resolving — returns success with exactly one screenshot,
for `#hero`. -/
theorem takeScreenshots_partial_capture_witness :
    (takeScreenshots c8Input c8Behavior).success = true ∧
    (takeScreenshots c8Input c8Behavior).screenshots =
      some [{ selector := "#hero", screenshot := "IMG" }] ∧
    (takeScreenshots c8Input c8Behavior).error = none := by
  have h := takeScreenshots_partial_capture c8Input c8Behavior (by decide) rfl rfl
  refine ⟨h.1, ?_, h.2.2⟩
  rw [h.2.1]
  decide

/-- C9: whenever a `takeScreenshots` execution launches the browser, the
browser is closed on every exit path — page-load failure, capture errors and
normal return alike. -/
theorem takeScreenshots_closes_browser (i : ScreenshotInput) (b : BrowserBehavior)
    (h : (takeScreenshots i b).browserLaunched = true) :
    (takeScreenshots i b).browserClosed = true := by
  unfold takeScreenshots at h ⊢
  by_cases h1 : (parseAbsoluteUrl i.url).isNone = true
  · rw [if_pos h1] at h; simp at h
  · rw [if_neg h1] at h ⊢
    by_cases h2 : i.selectors = []
    · rw [if_pos h2] at h; simp at h
    · rw [if_neg h2] at h ⊢
      cases hl : b.launchFailure with
      | some msg => rw [hl] at h; exact Bool.noConfusion h
      | none =>
        cases hp : b.pageSetupFailure with
        | some msg => rfl
        | none => rfl

/-- Witness for C9: a successfully launching call closes its browser. -/
theorem takeScreenshots_closes_browser_witness :
    (takeScreenshots c8Input c8Behavior).browserClosed = true :=
  takeScreenshots_closes_browser c8Input c8Behavior (by decide)

/-- C10 counterexample: an input that supplies the apiKey `""` (a string,
hence "an apiKey is supplied") is not written into the environment — the
JavaScript truthiness test `if (apiKey)` ignores the empty string — and the
call fails with the key-missing message instead. -/
theorem runSingleAudit_empty_key_not_written :
    (runSingleAudit none c10EmptyKeyInput c10Fetch c10Behavior).envAfter = none ∧
    (runSingleAudit none c10EmptyKeyInput c10Fetch c10Behavior).error =
      some "Gemini API key is not set. Please provide it." ∧
    (runSingleAudit none c10EmptyKeyInput c10Fetch c10Behavior).fetchAttempted = false := by
  refine ⟨by decide, by decide, by decide⟩

/-- C10 (amended): for valid input, when the request carries no apiKey (or
only an empty one) and `GEMINI_API_KEY` is unset or empty, the call fails
with exactly `Gemini API key is not set. Please provide it.` before any
fetch; a *non-empty* supplied apiKey is written into the process environment
(so it persists for subsequent calls, which then proceed past the key
check). -/
theorem runSingleAudit_api_key_gate :
    (∀ (key : Option String) (i : SingleAuditInput) (fetch : FetchResult)
       (behavior : AnalyzeContentComplianceInput → AnalysisBehavior),
       singleAuditValidationErrors i = [] →
       (i.apiKey = none ∨ i.apiKey = some "") →
       envKeyMissing key = true →
       (runSingleAudit key i fetch behavior).success = false ∧
       (runSingleAudit key i fetch behavior).error = some "Gemini API key is not set. Please provide it." ∧
       (runSingleAudit key i fetch behavior).fetchAttempted = false) ∧
    (∀ (key : Option String) (i : SingleAuditInput) (fetch : FetchResult)
       (behavior : AnalyzeContentComplianceInput → AnalysisBehavior) (k : String),
       singleAuditValidationErrors i = [] →
       i.apiKey = some k → k ≠ "" →
       (runSingleAudit key i fetch behavior).envAfter = some k) ∧
    (∀ (k : String) (i : SingleAuditInput) (fetch : FetchResult)
       (behavior : AnalyzeContentComplianceInput → AnalysisBehavior),
       k ≠ "" → singleAuditValidationErrors i = [] → i.apiKey = none →
       (runSingleAudit (some k) i fetch behavior).fetchAttempted = true) := by
  refine ⟨?_, ?_, ?_⟩
  · intro key i fetch behavior hv hak hkm
    unfold runSingleAudit
    dsimp only
    rw [if_neg (by rw [hv]; simp)]
    rcases hak with hak | hak <;> rw [hak] <;> dsimp only
    · rw [if_pos hkm]
      exact ⟨rfl, rfl, rfl⟩
    · have henv : (if ("".length ≠ 0) then (some "" : Option String) else key) = key :=
        if_neg (by simp)
      rw [henv, if_pos hkm]
      exact ⟨rfl, rfl, rfl⟩
  · intro key i fetch behavior k hv hak hk
    have hk0 : k.length ≠ 0 := length_ne_zero_of_ne_empty hk
    unfold runSingleAudit
    dsimp only
    rw [if_neg (by rw [hv]; simp), hak]
    dsimp only
    rw [if_pos hk0]
    rw [if_neg (show ¬envKeyMissing (some k) = true by simp [envKeyMissing, hk0])]
    split
    · rfl
    · split
      · rfl
      · split <;> rfl
  · intro k i fetch behavior hk hv hak
    have hk0 : k.length ≠ 0 := length_ne_zero_of_ne_empty hk
    unfold runSingleAudit
    dsimp only
    rw [if_neg (by rw [hv]; simp), hak]
    dsimp only
    rw [if_neg (show ¬envKeyMissing (some k) = true by simp [envKeyMissing, hk0])]
    split
    · rfl
    · split
      · rfl
      · split <;> rfl

/-- Witness for C10 (amended): no key and unset environment fails with the
exact message before fetching; supplying `k1` writes it into the
environment; a later call that starts with `k1` in the environment and no
apiKey reaches the fetch. -/
theorem runSingleAudit_api_key_gate_witness :
    ((runSingleAudit none c10NoKeyInput c10Fetch c10Behavior).success = false ∧
     (runSingleAudit none c10NoKeyInput c10Fetch c10Behavior).error =
       some "Gemini API key is not set. Please provide it." ∧
     (runSingleAudit none c10NoKeyInput c10Fetch c10Behavior).fetchAttempted = false) ∧
    (runSingleAudit none c10KeyInput c10Fetch c10Behavior).envAfter = some "k1" ∧
    (runSingleAudit (some "k1") c10NoKeyInput c10Fetch c10Behavior).fetchAttempted = true := by
  refine ⟨runSingleAudit_api_key_gate.1 none c10NoKeyInput c10Fetch c10Behavior (by decide) (Or.inl rfl) rfl,
    runSingleAudit_api_key_gate.2.1 none c10KeyInput c10Fetch c10Behavior "k1" (by decide) rfl (by decide),
    runSingleAudit_api_key_gate.2.2 "k1" c10NoKeyInput c10Fetch c10Behavior (by decide) (by decide) rfl⟩
